import Mathlib

/-!
Shallow embedding of `src/dfhist/__init__.py` (classes `DFHist` and
`VersionedFunc`).

Modelling conventions:
- A pandas `DataFrame` is an opaque type parameter `DF`; the csv
  serializer (`pandas.DataFrame.to_csv` / `pandas.read_csv`) is an external
  collaborator, modelled as an abstract `Serializer` record mapping tables
  to and from file contents, parameterised by the option bags that the code
  passes through (`marshal_params` / `unmarshal_params`).
- The cache directory is a flat list of files (`FS`), each carrying its
  name (the path relative to the configured directory; `os.path.join` with
  the directory prefix is dropped since every operation stays inside the one
  directory), its byte content, and its filesystem creation time `ctime`
  (`os.path.getctime`, held in microseconds as an integer, the resolution of
  Python `datetime` values).  Writing to an existing name overwrites the
  entry in place (as `DataFrame.to_csv` does); a write to an unwritable
  directory fails with `Err.persistError` and leaves the directory unchanged.
- Wall-clock time (`datetime.now()`) is an integer number of microseconds on
  the same epoch as `ctime`: the embedding runs the program in UTC, where
  `dt.now()` and `dt.utcfromtimestamp` agree on the epoch base.
- The filename pattern (the `format` argument, which must contain the
  placeholder token `{timestamp}` exactly once per the documented data
  model) is represented split at that placeholder into the literal pieces
  `pre` and `post`; substituting a timestamp string is concatenation.
- `glob.glob(join(directory, format.format(timestamp="*")))` is modelled by
  `globMatches`: a directory entry matches when it starts with `pre` and the
  remainder ends with `post` (the `*` wildcard of `fnmatch` on a literal
  pattern), except that `glob` skips entries whose name begins with a dot
  when the pattern itself does not begin with a dot.  The literal pieces are
  assumed to contain no further glob metacharacters.
- Exceptions are `Except Err`; Python's `NotImplementedError` is
  `Err.notImplemented`, the `ValueError`s of `DFHist.__init__` are
  `Err.valueError`, the `IndexError` raised by `versions[-1]` on an empty
  version list in `VersionedFunc.retrieve` is `Err.noHistory`, and a failed
  file write is `Err.persistError`.
- Calls of the wrapped function `f` are recorded: each top-level operation
  returns an `Outcome` holding the result (value or error), the directory
  state after the call, and the list of argument tuples `f` was invoked on.
-/

namespace Dfhist

/-- Option bags passed through to the serializer (`marshal_params`,
`unmarshal_params`); opaque key-value pairs. -/
abbrev Params := List (String × String)

/-- Error conditions raised by the embedded code. -/
inductive Err where
  | valueError
  | notImplemented
  | persistError
  | notFound
  | noHistory
  | decodeError
  deriving DecidableEq

/-- One directory entry: an artifact file with its name, content and
filesystem creation time (microseconds). -/
structure File where
  name : List Char
  content : List Char
  ctime : Int
  deriving DecidableEq

/-- The cache directory: its entries in filesystem listing order, plus
whether writes succeed (an unwritable directory makes `to_csv` raise). -/
structure FS where
  files : List File
  writable : Bool
  deriving DecidableEq

/-- The configuration held by a constructed `DFHist` instance. -/
structure Cfg where
  pre : List Char
  post : List Char
  expiry : Option Int
  method : String
  marshalParams : Params
  unmarshalParams : Params
  deriving DecidableEq

/-- The external csv serializer collaborator: `enc` models
`DataFrame.to_csv` (to file content), `dec` models `pandas.read_csv`
(from file content, possibly failing to parse). -/
structure Serializer (DF : Type) where
  enc : Params → DF → List Char
  dec : Params → List Char → Except Err DF

/-- Result of one top-level operation: the returned value or propagated
error, the directory afterwards, and the arguments of each wrapped-function
call made (in order). -/
structure Outcome (DF : Type) (Args : Type) where
  result : Except Err DF
  fs : FS
  calls : List Args

/-- Default `marshal_params` for the csv method: `{"index": False}`. -/
def csvDefaultMarshalParams : Params := [("index", "False")]

/-- Default `unmarshal_params` for the csv method: `{}`. -/
def csvDefaultUnmarshalParams : Params := []

/-- Model of `DFHist.__init__`: validates `expire`, then defaults whichever
option bags were not supplied, dispatching on `method` (only "csv" is
implemented) exactly where the source does.  The `format` argument is the
pattern split at its placeholder into `pre` and `post`, so the source's
containment check for the placeholder holds by representation; `makedirs`
is a no-op in the model (the directory always exists). -/
def initDFHist (pre post : List Char) (expire : Option Int) (method : String)
    (mp up : Option Params) : Except Err Cfg := do
  if let some e := expire then
    if e < 0 then throw Err.valueError
  let mp2 : Params ←
    match mp with
    | some p => pure p
    | none =>
      if method = "csv" then pure csvDefaultMarshalParams
      else throw Err.notImplemented
  let up2 : Params ←
    match up with
    | some p => pure p
    | none =>
      if method = "csv" then pure csvDefaultUnmarshalParams
      else throw Err.notImplemented
  pure ⟨pre, post, expire, method, mp2, up2⟩

/-- Substituting a timestamp string into the name pattern
(`self.format.format(timestamp=...)`). -/
def fmtPath (cfg : Cfg) (ts : List Char) : List Char :=
  cfg.pre ++ ts ++ cfg.post

/-- Does `name` begin with the literal pattern piece `pat`? -/
def leadMatch : (pat name : List Char) → Bool
  | [], _ => true
  | _ :: _, [] => false
  | p :: ps, n :: ns => (p = n) && leadMatch ps ns

/-- Does `name` end with the literal pattern piece `pat`? -/
def tailMatch (pat name : List Char) : Bool :=
  leadMatch pat.reverse name.reverse

/-- Model of matching a directory entry against the discovery glob
`pre ++ "*" ++ post`: the `*` of `fnmatch` matches any character sequence,
and `glob` hides entries beginning with a dot unless the pattern itself
begins with a dot (it begins with a dot exactly when `pre` does). -/
def globMatches (pre post name : List Char) : Bool :=
  (!decide (name.head? = some '.') || decide (pre.head? = some '.')) &&
  leadMatch pre name && tailMatch post (name.drop pre.length)

/-- Ascending-by-creation-time ordering on directory entries, the sort key
`os.path.getctime` of `DFHist.paths_to_versions`. -/
def ctLE (u v : File) : Prop := u.ctime ≤ v.ctime

instance : DecidableRel ctLE := fun u v => Int.decLe u.ctime v.ctime

instance : IsTotal File ctLE := ⟨fun u v => Int.le_total u.ctime v.ctime⟩

instance : IsTrans File ctLE := ⟨fun _ _ _ h1 h2 => Int.le_trans h1 h2⟩

/-- Model of `DFHist.paths_to_versions`: the directory entries matching the
discovery glob, stably sorted ascending by creation time (Python's `sorted`
with key `getctime` is a stable sort, as is `List.insertionSort` with a
total preorder).  Entries carry their metadata, so looking a returned path
up again for `getctime` or reading is field access. -/
def pathsToVersions (cfg : Cfg) (fs : FS) : List File :=
  List.insertionSort ctLE
    (fs.files.filter fun g => globMatches cfg.pre cfg.post g.name)

/-- Overwrite-or-create a directory entry named `path` with content
`content` and creation time `ct`, keeping the position of an overwritten
entry in listing order. -/
def writeEntries (files : List File) (path content : List Char) (ct : Int) :
    List File :=
  if files.any fun g => g.name = path then
    files.map fun g => if g.name = path then ⟨path, content, ct⟩ else g
  else files ++ [⟨path, content, ct⟩]

/-- Model of writing a file (`DataFrame.to_csv` at a path): fails with
`Err.persistError` when the directory is unwritable, otherwise
overwrites-or-creates the entry with creation time `now`. -/
def writeFile (fs : FS) (path content : List Char) (now : Int) :
    Except Err FS :=
  if fs.writable then
    .ok ⟨writeEntries fs.files path content now, fs.writable⟩
  else .error .persistError

/-- Reading a file's content by name, if present. -/
def readFile (fs : FS) (path : List Char) : Option (List Char) :=
  (fs.files.find? fun g => g.name = path).map File.content

/-- Model of `DFHist.marshal`: build the path from the timestamp formatter's
output `ts`, then dispatch on the method: for "csv" write the encoded table
and return the path, otherwise raise `NotImplementedError`. -/
def marshal {DF : Type} (S : Serializer DF) (cfg : Cfg) (ts : List Char)
    (now : Int) (df : DF) (fs : FS) : Except Err (List Char × FS) :=
  let path := fmtPath cfg ts
  if cfg.method = "csv" then
    match writeFile fs path (S.enc cfg.marshalParams df) now with
    | .error e => .error e
    | .ok fs2 => .ok (path, fs2)
  else .error .notImplemented

/-- Model of `DFHist.unmarshal`: dispatch on the method: for "csv" read the
file at `path` and decode it, otherwise raise `NotImplementedError`. -/
def unmarshal {DF : Type} (S : Serializer DF) (cfg : Cfg) (fs : FS)
    (path : List Char) : Except Err DF :=
  if cfg.method = "csv" then
    match readFile fs path with
    | none => .error .notFound
    | some c => S.dec cfg.unmarshalParams c
  else .error .notImplemented

/-- Model of `VersionedFunc.retrieve`: list the versions and load the most
recent (`versions[-1]`); on an empty version list the subscript raises
(modelled `Err.noHistory`).  The wrapped function is never consulted, so the
call log is empty and the directory is untouched. -/
def retrieve {DF Args : Type} (S : Serializer DF) (cfg : Cfg) (fs : FS) :
    Outcome DF Args :=
  match (pathsToVersions cfg fs).getLast? with
  | none => ⟨.error .noHistory, fs, []⟩
  | some v => ⟨unmarshal S cfg fs v.name, fs, []⟩

/-- Python `timedelta.seconds` of an elapsed duration of `e` microseconds:
the seconds component after splitting off whole days, always in
`[0, 86400)`; whole days are NOT included. -/
def elapsedSeconds (e : Int) : Int :=
  (Int.fdiv e 1000000) % 86400

/-- The freshness decision of `VersionedFunc.__call__`: `refresh` stays
`true` when there are no versions; otherwise the cache is used (refresh
`false`) when `expiry is None` or `elapsed.seconds < expiry`, where
`elapsed` is current time minus the creation time of the last version. -/
def decideRefresh (cfg : Cfg) (now : Int) (fs : FS) : Bool :=
  match (pathsToVersions cfg fs).getLast? with
  | none => true
  | some v =>
    match cfg.expiry with
    | none => false
    | some e => if elapsedSeconds (now - v.ctime) < e then false else true

/-- Model of `VersionedFunc.__call__` (invoke): evaluate the freshness
decision; on refresh call the wrapped function (errors propagate with no
artifact written), save its result (a save error propagates after the call,
losing the computed value), and return the computed table; otherwise return
`retrieve()`. -/
def invoke {DF Args : Type} (S : Serializer DF) (cfg : Cfg)
    (f : Args → Except Err DF) (now : Int) (ts : List Char) (fs : FS)
    (a : Args) : Outcome DF Args :=
  if decideRefresh cfg now fs then
    match f a with
    | .error e => ⟨.error e, fs, [a]⟩
    | .ok df =>
      match marshal S cfg ts now df fs with
      | .error e => ⟨.error e, fs, [a]⟩
      | .ok (_, fs2) => ⟨.ok df, fs2, [a]⟩
  else retrieve S cfg fs

/-- Model of `VersionedFunc.force`: unconditionally call the wrapped
function, save the result, return it; freshness is never consulted. -/
def force {DF Args : Type} (S : Serializer DF) (cfg : Cfg)
    (f : Args → Except Err DF) (now : Int) (ts : List Char) (fs : FS)
    (a : Args) : Outcome DF Args :=
  match f a with
  | .error e => ⟨.error e, fs, [a]⟩
  | .ok df =>
    match marshal S cfg ts now df fs with
    | .error e => ⟨.error e, fs, [a]⟩
    | .ok (_, fs2) => ⟨.ok df, fs2, [a]⟩

/-! ### Concrete instances used to witness the theorems below -/

/-- A concrete serializer for witnesses: a natural number `n` is encoded as
`n` copies of `x` and decoded as the content's length, so decode after
encode is the identity. -/
def natSerializer : Serializer Nat :=
  ⟨fun _ n => List.replicate n 'x', fun _ c => .ok c.length⟩

/-- A concrete serializer whose decode does NOT invert encode (every load
yields `0`), exhibiting serializer normalization. -/
def lossySerializer : Serializer Nat :=
  ⟨fun _ n => List.replicate n 'x', fun _ _ => .ok 0⟩

/-- Configuration with pattern placeholder followed by `.csv` and a one-hour
expiry. -/
def cfgHour : Cfg :=
  ⟨[], ".csv".data, some 3600, "csv", csvDefaultMarshalParams,
    csvDefaultUnmarshalParams⟩

/-- Configuration with no expiry. -/
def cfgNoExp : Cfg :=
  ⟨[], ".csv".data, none, "csv", csvDefaultMarshalParams,
    csvDefaultUnmarshalParams⟩

/-- Configuration whose method is the unimplemented "xml" (obtainable from
`initDFHist` only by supplying both option bags). -/
def cfgXml : Cfg :=
  ⟨[], ".csv".data, none, "xml", csvDefaultMarshalParams,
    csvDefaultUnmarshalParams⟩

/-- A wrapped function that computes the table `99`. -/
def fW : Unit → Except Err Nat := fun _ => .ok 99

/-- A wrapped function that raises. -/
def fErr : Unit → Except Err Nat := fun _ => .error Err.decodeError

/-- An empty, writable cache directory. -/
def fsEmpty : FS := ⟨[], true⟩

/-- An empty, unwritable cache directory. -/
def fsRO : FS := ⟨[], false⟩

/-- A directory holding one artifact `1.csv` created at time 0 whose
content decodes (under `natSerializer`) to the table `2`. -/
def fs1 : FS := ⟨[⟨"1.csv".data, ['x', 'x'], 0⟩], true⟩

/-! ### Helper lemmas -/

/-- Matching a literal pattern piece against itself followed by anything. -/
theorem leadMatch_append (pre rest : List Char) :
    leadMatch pre (pre ++ rest) = true := by
  induction pre with
  | nil => rfl
  | cons p ps ih => simp [leadMatch, ih]

/-- Matching a literal tail piece against anything followed by itself. -/
theorem tailMatch_append (post ts : List Char) :
    tailMatch post (ts ++ post) = true := by
  unfold tailMatch
  rw [List.reverse_append]
  exact leadMatch_append post.reverse ts.reverse

/-- Looking up the just-written name in an overwritten-or-extended
directory finds the new entry. -/
theorem find?_writeEntries (files : List File) (path content : List Char)
    (ct : Int) :
    (writeEntries files path content ct).find? (fun g => g.name = path) =
      some ⟨path, content, ct⟩ := by
  unfold writeEntries
  induction files with
  | nil => simp [List.find?]
  | cons g gs ih =>
    by_cases hg : g.name = path
    · simp [List.any_cons, hg, List.find?]
    · by_cases ha : gs.any (fun g => g.name = path) = true
      · simpa [List.any_cons, hg, ha, List.find?] using by simpa [ha] using ih
      · have ha' : gs.any (fun g => g.name = path) = false :=
          Bool.not_eq_true _ ▸ ha
        simpa [List.any_cons, hg, ha', List.find?] using by simpa [ha'] using ih

/-- Reading back the name just written yields the written content. -/
theorem readFile_writeEntries (files : List File) (path content : List Char)
    (ct : Int) (w : Bool) :
    readFile ⟨writeEntries files path content ct, w⟩ path = some content := by
  unfold readFile
  show ((writeEntries files path content ct).find?
    (fun g => g.name = path)).map File.content = some content
  rw [find?_writeEntries]
  rfl

/-! ### Claim theorems -/

/-- C1: the claim says `invoke` at `t0 + d` serves the cache iff the expiry
is absent or `d < E` with second granularity.  The code instead compares
`timedelta.seconds`, which drops whole days: with expiry 3600 and an
artifact created at time 0, `invoke` exactly one day later (elapsed
`d = 86400` seconds, far beyond the one-hour expiry, as the second conjunct
records) still serves the cached table `2`, calls the wrapped function not
at all, and writes nothing — contradicting the claim and the code's own
docstring ("the lifetime of a cached value, in seconds"). -/
theorem invoke_day_old_artifact_served_fresh :
    invoke natSerializer cfgHour fW (86400 * 1000000) "2".data fs1 () =
      ⟨.ok 2, fs1, []⟩ ∧ ¬((86400 : Int) < 3600) :=
  ⟨rfl, by decide⟩

/-- C2: for any serializer and any table `T` it round-trips (decode after
encode is `T`), unmarshalling the path returned by a successful marshal
yields `T` again. -/
theorem marshal_unmarshal_roundtrip {DF : Type} (S : Serializer DF)
    (cfg : Cfg) (fs : FS) (T : DF) (ts : List Char) (now : Int)
    (hm : cfg.method = "csv") (hw : fs.writable = true)
    (hacc : S.dec cfg.unmarshalParams (S.enc cfg.marshalParams T) = .ok T) :
    ∃ fs2, marshal S cfg ts now T fs = .ok (fmtPath cfg ts, fs2) ∧
      unmarshal S cfg fs2 (fmtPath cfg ts) = .ok T := by
  refine ⟨⟨writeEntries fs.files (fmtPath cfg ts)
    (S.enc cfg.marshalParams T) now, fs.writable⟩, ?_, ?_⟩
  · simp [marshal, hm, writeFile, hw]
  · simp [unmarshal, hm, readFile_writeEntries, hacc]

/-- Witness for C2 at the concrete `natSerializer` and table `7`. -/
theorem marshal_unmarshal_roundtrip_witness :
    ∃ fs2, marshal natSerializer cfgHour "1".data 5 7 fsEmpty =
        .ok (fmtPath cfgHour "1".data, fs2) ∧
      unmarshal natSerializer cfgHour fs2 (fmtPath cfgHour "1".data) =
        .ok 7 :=
  marshal_unmarshal_roundtrip natSerializer cfgHour fsEmpty 7 "1".data 5
    rfl rfl rfl

/-- C3 counterexample: in an unwritable directory the wrapped function runs
and computes the table `99`, but `invoke` propagates the save failure
instead of returning the computed table — refuting the claim that the
caller still receives the table when persistence is the only failure. -/
theorem invoke_save_failure_drops_computed_table :
    (invoke natSerializer cfgNoExp fW 0 "1".data fsRO ()).calls = [()] ∧
    fW () = .ok 99 ∧
    (invoke natSerializer cfgNoExp fW 0 "1".data fsRO ()).result =
      .error .persistError ∧
    (invoke natSerializer cfgNoExp fW 0 "1".data fsRO ()).result ≠
      .ok 99 := by
  refine ⟨rfl, rfl, rfl, fun h => ?_⟩
  rw [show (invoke natSerializer cfgNoExp fW 0 "1".data fsRO ()).result =
    .error .persistError from rfl] at h
  exact Except.noConfusion h

/-- C3 amended: when the wrapped function succeeds but the save fails, the
persistence error propagates to the caller of `force` (and of `invoke` on
its recompute path), the computed table is NOT returned, the directory is
unchanged, and the wrapped function has already been called once. -/
theorem save_failure_propagates {DF Args : Type} (S : Serializer DF)
    (cfg : Cfg) (f : Args → Except Err DF) (now : Int) (ts : List Char)
    (fs : FS) (a : Args) (df : DF)
    (hm : cfg.method = "csv") (hw : fs.writable = false)
    (hf : f a = .ok df) :
    force S cfg f now ts fs a = ⟨.error .persistError, fs, [a]⟩ ∧
    (decideRefresh cfg now fs = true →
      invoke S cfg f now ts fs a = ⟨.error .persistError, fs, [a]⟩) := by
  constructor
  · simp [force, hf, marshal, hm, writeFile, hw]
  · intro hr
    simp [invoke, hr, hf, marshal, hm, writeFile, hw]

/-- Witness for the amended C3 in a concrete unwritable empty directory. -/
theorem save_failure_propagates_witness :
    force natSerializer cfgNoExp fW 0 "1".data fsRO () =
      ⟨.error .persistError, fsRO, [()]⟩ ∧
    invoke natSerializer cfgNoExp fW 0 "1".data fsRO () =
      ⟨.error .persistError, fsRO, [()]⟩ := by
  have h := save_failure_propagates natSerializer cfgNoExp fW 0 "1".data
    fsRO () 99 rfl rfl rfl
  exact ⟨h.1, h.2 rfl⟩

/-- C4: in ANY prior cache state (the directory `fs` is arbitrary, so empty,
fresh and stale states are all covered and freshness is never consulted),
`force` calls the wrapped function exactly once with the given arguments,
appends exactly one new artifact (the freshly named file holding the encoded
table), and returns the computed table. -/
theorem force_computes_once_and_saves {DF Args : Type} (S : Serializer DF)
    (cfg : Cfg) (f : Args → Except Err DF) (now : Int) (ts : List Char)
    (fs : FS) (a : Args) (df : DF)
    (hm : cfg.method = "csv") (hw : fs.writable = true)
    (hf : f a = .ok df)
    (hfresh : fs.files.any (fun g => g.name = fmtPath cfg ts) = false) :
    force S cfg f now ts fs a =
      ⟨.ok df,
       ⟨fs.files ++
         [⟨fmtPath cfg ts, S.enc cfg.marshalParams df, now⟩],
        fs.writable⟩,
       [a]⟩ := by
  simp [force, hf, marshal, hm, writeFile, hw, writeEntries, hfresh]

/-- Witness for C4: forcing in the empty directory computes `99`, saves
exactly one artifact and returns the computed table. -/
theorem force_computes_once_and_saves_witness :
    force natSerializer cfgNoExp fW 5 "1".data fsEmpty () =
      ⟨.ok 99,
       ⟨fsEmpty.files ++
         [⟨fmtPath cfgNoExp "1".data,
           natSerializer.enc cfgNoExp.marshalParams 99, 5⟩],
        fsEmpty.writable⟩,
       [()]⟩ :=
  force_computes_once_and_saves natSerializer cfgNoExp fW 5 "1".data
    fsEmpty () 99 rfl rfl rfl rfl

/-- C5: `retrieve` never calls the wrapped function (its call log is empty —
the definition does not even consult `f`) and leaves the directory
untouched; when no artifact exists it fails with the no-history error
(Python's `versions[-1]` subscript failure on an empty list), and when
artifacts exist it returns exactly the result of loading the latest one. -/
theorem retrieve_loads_latest_or_fails {DF Args : Type} (S : Serializer DF)
    (cfg : Cfg) (fs : FS) :
    (@retrieve DF Args S cfg fs).calls = [] ∧
    (@retrieve DF Args S cfg fs).fs = fs ∧
    (pathsToVersions cfg fs = [] →
      (@retrieve DF Args S cfg fs).result = .error .noHistory) ∧
    ∀ v, (pathsToVersions cfg fs).getLast? = some v →
      (@retrieve DF Args S cfg fs).result = unmarshal S cfg fs v.name := by
  refine ⟨?_, ?_, ?_, ?_⟩
  · cases h : (pathsToVersions cfg fs).getLast? <;> simp [retrieve, h]
  · cases h : (pathsToVersions cfg fs).getLast? <;> simp [retrieve, h]
  · intro hnil
    have h : (pathsToVersions cfg fs).getLast? = none := by rw [hnil]; rfl
    simp [retrieve, h]
  · intro v hv
    simp [retrieve, hv]

/-- Witness for C5: on the empty directory `retrieve` fails with the
no-history error; with one artifact it returns the loaded table `2` and
makes no wrapped-function call. -/
theorem retrieve_loads_latest_or_fails_witness :
    (@retrieve Nat Unit natSerializer cfgHour fsEmpty).result =
      .error .noHistory ∧
    (@retrieve Nat Unit natSerializer cfgHour fs1).result = .ok 2 ∧
    (@retrieve Nat Unit natSerializer cfgHour fs1).calls = [] := by
  have h0 := @retrieve_loads_latest_or_fails Nat Unit natSerializer cfgHour
    fsEmpty
  have h1 := @retrieve_loads_latest_or_fails Nat Unit natSerializer cfgHour
    fs1
  refine ⟨h0.2.2.1 rfl, ?_, h1.1⟩
  have hv := h1.2.2.2 ⟨"1.csv".data, ['x', 'x'], 0⟩ rfl
  rw [hv]
  rfl

/-- C6 counterexample: with BOTH option bags supplied explicitly,
construction with the unimplemented method "xml" succeeds (no Unsupported
condition at configuration time), refuting fail-fast construction for every
non-csv method. -/
theorem init_accepts_unknown_method_when_params_given :
    initDFHist [] ".csv".data none "xml" (some csvDefaultMarshalParams)
      (some []) =
      .ok ⟨[], ".csv".data, none, "xml", csvDefaultMarshalParams, []⟩ :=
  rfl

/-- C6 amended: construction fails fast with the Unsupported condition for
a non-csv method exactly on the paths where an option bag is defaulted
(marshal bag omitted, or marshal bag given and unmarshal bag omitted); when
both bags are supplied the error surfaces only later, when `marshal` or
`unmarshal` is invoked on the resulting configuration. -/
theorem unsupported_method_fails_where_defaulted {DF : Type}
    (S : Serializer DF) (pre post : List Char) (expire : Option Int)
    (method : String) (p : Params) (up : Option Params)
    (hm : method ≠ "csv") (he : ∀ e, expire = some e → 0 ≤ e) :
    initDFHist pre post expire method none up = .error .notImplemented ∧
    initDFHist pre post expire method (some p) none =
      .error .notImplemented ∧
    (∀ cfg : Cfg, cfg.method = method → ∀ (ts : List Char) (now : Int)
      (df : DF) (fs : FS),
      marshal S cfg ts now df fs = .error .notImplemented) ∧
    (∀ cfg : Cfg, cfg.method = method → ∀ (fs : FS) (path : List Char),
      unmarshal S cfg fs path = .error .notImplemented) := by
  have hlt : ∀ e : Int, expire = some e → ¬(e < 0) := fun e h =>
    Int.not_lt.mpr (he e h)
  refine ⟨?_, ?_, ?_, ?_⟩
  · cases expire with
    | none =>
      simp [initDFHist, hm]
      rfl
    | some e =>
      simp [initDFHist, hm, hlt e rfl]
      rfl
  · cases expire with
    | none =>
      simp [initDFHist, hm]
      rfl
    | some e =>
      simp [initDFHist, hm, hlt e rfl]
      rfl
  · intro cfg hc ts now df fs
    rw [marshal]
    simp [hc, hm]
  · intro cfg hc fs path
    rw [unmarshal]
    simp [hc, hm]

/-- Witness for the amended C6 at the concrete method "xml". -/
theorem unsupported_method_fails_where_defaulted_witness :
    initDFHist [] ".csv".data none "xml" none (some []) =
      .error .notImplemented ∧
    initDFHist [] ".csv".data none "xml" (some csvDefaultMarshalParams)
      none = .error .notImplemented ∧
    marshal natSerializer cfgXml "1".data 0 3 fsEmpty =
      .error .notImplemented ∧
    unmarshal natSerializer cfgXml fsEmpty "1.csv".data =
      .error .notImplemented := by
  have h := unsupported_method_fails_where_defaulted natSerializer []
    ".csv".data none "xml" csvDefaultMarshalParams (some [])
    (by decide) (fun e hh => nomatch hh)
  exact ⟨h.1, h.2.1, h.2.2.1 cfgXml rfl "1".data 0 3 fsEmpty,
    h.2.2.2 cfgXml rfl fsEmpty "1.csv".data⟩

/-- C7: when the wrapped function raises, the same error propagates
unchanged from `force` (and from `invoke` on its recompute path), the set
of files in the cache directory is exactly what it was before the call, and
the function was called once with the given arguments. -/
theorem wrapped_error_propagates_unchanged {DF Args : Type}
    (S : Serializer DF) (cfg : Cfg) (f : Args → Except Err DF) (now : Int)
    (ts : List Char) (fs : FS) (a : Args) (e : Err)
    (hf : f a = .error e) :
    force S cfg f now ts fs a = ⟨.error e, fs, [a]⟩ ∧
    (decideRefresh cfg now fs = true →
      invoke S cfg f now ts fs a = ⟨.error e, fs, [a]⟩) := by
  constructor
  · simp [force, hf]
  · intro hr
    simp [invoke, hr, hf]

/-- Witness for C7: a raising wrapped function propagates its error out of
both `force` and `invoke` on the concrete empty directory, saving nothing. -/
theorem wrapped_error_propagates_unchanged_witness :
    force natSerializer cfgNoExp fErr 0 "1".data fsEmpty () =
      ⟨.error Err.decodeError, fsEmpty, [()]⟩ ∧
    invoke natSerializer cfgNoExp fErr 0 "1".data fsEmpty () =
      ⟨.error Err.decodeError, fsEmpty, [()]⟩ := by
  have h := wrapped_error_propagates_unchanged natSerializer cfgNoExp fErr
    0 "1".data fsEmpty () Err.decodeError rfl
  exact ⟨h.1, h.2 rfl⟩

/-- C8: for every directory state, the artifact listing is sorted ascending
by creation time, is a permutation of exactly the entries matching the
discovery glob, and is empty (without failing) when nothing matches. -/
theorem paths_to_versions_sorted (cfg : Cfg) (fs : FS) :
    List.Sorted ctLE (pathsToVersions cfg fs) ∧
    (pathsToVersions cfg fs).Perm
      (fs.files.filter fun g => globMatches cfg.pre cfg.post g.name) ∧
    ((fs.files.filter fun g => globMatches cfg.pre cfg.post g.name) = [] →
      pathsToVersions cfg fs = []) := by
  refine ⟨List.sorted_insertionSort ctLE _, List.perm_insertionSort ctLE _,
    fun h => ?_⟩
  have hp : (pathsToVersions cfg fs).Perm
      (fs.files.filter fun g => globMatches cfg.pre cfg.post g.name) :=
    List.perm_insertionSort ctLE _
  rw [h] at hp
  exact hp.eq_nil

/-- Witness for C8: the empty directory lists no artifacts, and a two-entry
directory whose files arrive in reverse creation order is listed sorted. -/
theorem paths_to_versions_sorted_witness :
    pathsToVersions cfgHour fsEmpty = [] ∧
    List.Sorted ctLE (pathsToVersions cfgHour
      ⟨[⟨"2.csv".data, ['x'], 9⟩, ⟨"1.csv".data, ['x', 'x'], 0⟩], true⟩) := by
  refine ⟨(paths_to_versions_sorted cfgHour fsEmpty).2.2 rfl, ?_⟩
  exact (paths_to_versions_sorted cfgHour _).1

/-- C9 counterexample: with the pattern `.csv` preceded directly by the
placeholder, the formatter output `.h` yields the artifact `.h.csv`; the
save succeeds and creates that file, yet the discovery glob does not match
it (glob hides dot-initial entries when the pattern is not dot-initial), so
a subsequent listing comes back empty and the saved artifact is lost to
discovery — refuting the claim for every formatter string. -/
theorem saved_hidden_artifact_not_listed :
    marshal natSerializer cfgHour ".h".data 5 1 fsEmpty =
      .ok (".h.csv".data, ⟨[⟨".h.csv".data, ['x'], 5⟩], true⟩) ∧
    globMatches cfgHour.pre cfgHour.post (fmtPath cfgHour ".h".data) =
      false ∧
    pathsToVersions cfgHour ⟨[⟨".h.csv".data, ['x'], 5⟩], true⟩ = [] :=
  ⟨rfl, rfl, rfl⟩

/-- C9 amended: every formatter string whose substituted artifact name does
not begin with a dot — unless the pattern's literal prefix itself does — is
matched by the discovery glob, so such saved artifacts are found by a
subsequent listing. -/
theorem formatter_substitution_matched_by_glob (cfg : Cfg) (ts : List Char)
    (hdot : (fmtPath cfg ts).head? = some '.' →
      cfg.pre.head? = some '.') :
    globMatches cfg.pre cfg.post (fmtPath cfg ts) = true := by
  unfold globMatches
  have h1 : (fmtPath cfg ts).drop cfg.pre.length = ts ++ cfg.post := by
    unfold fmtPath
    rw [List.append_assoc]
    exact List.drop_left cfg.pre (ts ++ cfg.post)
  have h2 : leadMatch cfg.pre (fmtPath cfg ts) = true := by
    unfold fmtPath
    rw [List.append_assoc]
    exact leadMatch_append cfg.pre (ts ++ cfg.post)
  rw [h1, tailMatch_append, h2]
  by_cases h : (fmtPath cfg ts).head? = some '.'
  · rw [decide_eq_true h, decide_eq_true (hdot h)]
    rfl
  · rw [decide_eq_false h]
    rfl

/-- Witness for the amended C9: the formatter output `1` substituted into
the `.csv` pattern is matched by the discovery glob. -/
theorem formatter_substitution_matched_by_glob_witness :
    globMatches cfgHour.pre cfgHour.post (fmtPath cfgHour "1".data) =
      true :=
  formatter_substitution_matched_by_glob cfgHour "1".data (by decide)

/-- C10: on every recompute path — `invoke` when the freshness decision
requires recomputation, and every `force` — the caller receives exactly the
table produced by the wrapped function, for an ARBITRARY serializer with no
round-trip assumption: the returned value is not re-loaded from the saved
artifact, so serializer normalization could only be seen by later loads. -/
theorem recompute_returns_computed_table {DF Args : Type}
    (S : Serializer DF) (cfg : Cfg) (f : Args → Except Err DF) (now : Int)
    (ts : List Char) (fs : FS) (a : Args) (df : DF)
    (hm : cfg.method = "csv") (hw : fs.writable = true)
    (hf : f a = .ok df) :
    (decideRefresh cfg now fs = true →
      (invoke S cfg f now ts fs a).result = .ok df) ∧
    (force S cfg f now ts fs a).result = .ok df := by
  constructor
  · intro hr
    simp [invoke, hr, hf, marshal, hm, writeFile, hw]
  · simp [force, hf, marshal, hm, writeFile, hw]

/-- Witness for C10 with the deliberately lossy serializer (every load
yields `0`): invoke and force still return the computed `99`, showing the
value is the wrapped function's output and not a reload. -/
theorem recompute_returns_computed_table_witness :
    (invoke lossySerializer cfgNoExp fW 0 "1".data fsEmpty ()).result =
      .ok 99 ∧
    (force lossySerializer cfgNoExp fW 0 "1".data fsEmpty ()).result =
      .ok 99 ∧
    lossySerializer.dec cfgNoExp.unmarshalParams
      (lossySerializer.enc cfgNoExp.marshalParams 99) ≠ .ok 99 := by
  have h := recompute_returns_computed_table lossySerializer cfgNoExp fW 0
    "1".data fsEmpty () 99 rfl rfl rfl
  refine ⟨h.1 rfl, h.2, fun hh => ?_⟩
  rw [show lossySerializer.dec cfgNoExp.unmarshalParams
    (lossySerializer.enc cfgNoExp.marshalParams 99) = .ok 0 from rfl] at hh
  exact absurd (Except.ok.inj hh) (by decide)

end Dfhist
